import Mathlib

/-!
Shallow embedding of `src/public/validate_sql.py`, a small static checker that
scans a SQL text for three PostgreSQL pitfalls and reports errors, warnings and
a statement count.  Documents are modelled as Lean strings; the per-character
Python string operations (strip, startswith, endswith, `in`, split) are
modelled over `List Char`.
-/

namespace ValidateSql

/-- The characters removed by the Python `str.strip()` call: exactly the
code points CPython `str.isspace()` accepts (ASCII whitespace, the four
separator controls U+001C..U+001F, NEL, NBSP, Ogham space mark, the
U+2000..U+200A spaces, line and paragraph separators, narrow no-break
space, medium mathematical space and ideographic space). -/
def isSpaceChar (c : Char) : Bool :=
  c = ' ' || c = '\t' || c = '\n' || c = '\r' || c = '\x0b' || c = '\x0c' ||
  c = '\x1c' || c = '\x1d' || c = '\x1e' || c = '\x1f' ||
  c = '\x85' || c = '\xa0' || c = '\u1680' ||
  (0x2000 ≤ c.toNat && c.toNat ≤ 0x200a) ||
  c = '\u2028' || c = '\u2029' || c = '\u202f' || c = '\u205f' || c = '\u3000'

/-- Drop leading whitespace characters. -/
def dropSpaces : List Char → List Char
  | [] => []
  | c :: cs => if isSpaceChar c then dropSpaces cs else c :: cs

/-- Python `s.strip()`: remove leading and trailing whitespace. -/
def pyStrip (s : List Char) : List Char :=
  (dropSpaces ((dropSpaces s).reverse)).reverse

/-- Python `s.split(sep)` for a one-character separator: the empty string
splits to one empty piece, and every occurrence of `sep` starts a new piece. -/
def pySplit (sep : Char) : List Char → List (List Char)
  | [] => [[]]
  | c :: cs =>
    if c = sep then [] :: pySplit sep cs
    else
      match pySplit sep cs with
      | [] => [[c]]
      | l :: ls => (c :: l) :: ls

/-- Python `pat in s`: substring containment. -/
def pyContains (pat : List Char) : List Char → Bool
  | [] => pat.isPrefixOf []
  | c :: cs => pat.isPrefixOf (c :: cs) || pyContains pat cs

/-- One reported finding.  The Python code stores the string
`"Line {i}: {msg}"`; the model keeps the 1-based line number and the message
apart and `renderFinding` rebuilds the exact Python string. -/
structure Finding where
  line : Nat
  msg : String
deriving DecidableEq

/-- Message of the invalid-constraint error (the Python text, with the two
quote characters written as escapes). -/
def constraintMsg : String :=
  "\x27ADD CONSTRAINT IF NOT EXISTS\x27 is not valid PostgreSQL syntax"

/-- Message of the unclosed-DO-block error. -/
def doBlockMsg : String := "DO block not properly closed"

/-- Message of the function-delimiter warning. -/
def delimiterMsg : String := "Function may be missing proper delimiters"

/-- One pass of the inner `while j < len(lines)` loop of the DO-block check:
`fuel` is the number of iterations the bound `j < len(lines)` still allows
(it is positive exactly when `j < len(lines)`); each iteration looks at
`lines[j-1]` and the result is `true` exactly when the loop exits through
`break` (a line whose stripped form ends with the closing tag was reached). -/
def scanCloseAux (lines : List (List Char)) : Nat → Nat → Bool
  | 0, _ => false
  | fuel + 1, j =>
    if ("$$;".data).isSuffixOf (pyStrip (lines.getD (j - 1) [])) then true
    else scanCloseAux lines fuel (j + 1)

/-- The inner `while j < len(lines)` loop of the DO-block check, entered with
`j = i`: the loop can still run `lines.length - j` times. -/
def scanClose (lines : List (List Char)) (j : Nat) : Bool :=
  scanCloseAux lines (lines.length - j) j

/-- The body of the `for i, line in enumerate(lines, 1)` loop of
`validate_sql` (the Python validate_sql_syntax) for one line: `i` is the 1-based line number, `raw` the
unstripped line, `lines` the whole document (used by the forward scans).
Returns the errors and warnings this line contributes, in emission order. -/
def checkLine (lines : List (List Char)) (i : Nat) (raw : List Char) :
    List Finding × List Finding :=
  let line := pyStrip raw
  if line.isEmpty || ("--".data).isPrefixOf line then ([], [])
  else
    let errs1 := if pyContains ("ADD CONSTRAINT IF NOT EXISTS".data) line then
        [⟨i, constraintMsg⟩] else []
    let errs2 := if ("DO $$".data).isPrefixOf line && !(("$$;".data).isSuffixOf line) then
        (if scanClose lines i then [] else [⟨i, doBlockMsg⟩]) else []
    let warns := if pyContains ("CREATE OR REPLACE FUNCTION".data) line then
        (if pyContains ("$$".data) (((lines.drop (i - 1)).take 11).flatten) then []
         else [⟨i, delimiterMsg⟩])
      else []
    (errs1 ++ errs2, warns)

/-- The main loop of `validate_sql`: findings of the line with 1-based
number `i` (the head of `rest`), then those of the following lines, appended
in scan order into the error and warning sequences. -/
def validateAux (lines : List (List Char)) (i : Nat) :
    List (List Char) → List Finding × List Finding
  | [] => ([], [])
  | raw :: rest =>
    let hd := checkLine lines i raw
    let tl := validateAux lines (i + 1) rest
    (hd.1 ++ tl.1, hd.2 ++ tl.2)

/-- The line decomposition `sql_content.split(chr 10)` of a document. -/
def docLines (sql_content : String) : List (List Char) :=
  pySplit '\n' sql_content.data

/-- The Python function `validate_sql_syntax(sql_content)` (renamed here):
split the document on newline characters and scan every line, collecting
`(errors, warnings)`. -/
def validate_sql (sql_content : String) : List Finding × List Finding :=
  let lines := docLines sql_content
  validateAux lines 1 lines

/-- The exact string the Python code stores for a finding. -/
def renderFinding (f : Finding) : String :=
  "Line " ++ toString f.line ++ ": " ++ f.msg

/-- The statement count printed by `main`: `len(sql_content.split(ch))` for
the semicolon character. -/
def statementCount (sql_content : String) : Nat :=
  (pySplit ';' sql_content.data).length

/-- The report printed by `main` after the input was read, one list entry per
`print` call (an entry may contain an embedded newline, as in the Python
f-strings that start with one). -/
def report (sql_content : String) : List String :=
  let res := validate_sql sql_content
  let errors := res.1
  let warnings := res.2
  ["SQL Syntax Validation Results:", String.mk (List.replicate 40 '=')]
    ++ (if errors.isEmpty then ["✅ No syntax errors found"]
        else ("❌ ERRORS FOUND (" ++ toString errors.length ++ "):")
          :: errors.map (fun e => "  " ++ renderFinding e))
    ++ (if warnings.isEmpty then ["✅ No warnings"]
        else ("\n⚠️ WARNINGS (" ++ toString warnings.length ++ "):")
          :: warnings.map (fun w => "  " ++ renderFinding w))
    ++ ["\n📊 File contains " ++ toString (statementCount sql_content) ++ " SQL statements",
        if errors.isEmpty then "✅ Ready for deployment" else "❌ Fix errors before deployment"]

/-- `main()`.  `none` models the `FileNotFoundError` branch (the input file
could not be opened); `some t` models a successful read with content `t`.
Result: the printed lines and the process exit status
(`return 0 if not errors else 1`). -/
def mainModel (input : Option String) : List String × Nat :=
  match input with
  | none => (["❌ SQL file not found"], 1)
  | some sql_content =>
    (report sql_content,
     if (validate_sql sql_content).1.isEmpty then 0 else 1)

/-! ### Helper lemmas about the per-line check -/

/-- The error list a single line contributes is one of four explicit lists,
each of whose findings carries that line number. -/
lemma checkLine_fst_cases (lines : List (List Char)) (i : Nat) (raw : List Char) :
    (checkLine lines i raw).1 = [] ∨
    (checkLine lines i raw).1 = [⟨i, constraintMsg⟩] ∨
    (checkLine lines i raw).1 = [⟨i, doBlockMsg⟩] ∨
    (checkLine lines i raw).1 = [⟨i, constraintMsg⟩, ⟨i, doBlockMsg⟩] := by
  unfold checkLine
  dsimp only
  split
  · exact Or.inl rfl
  · (repeat' split) <;> simp

/-- The warning list a single line contributes is empty or the one delimiter
warning at that line number. -/
lemma checkLine_snd_cases (lines : List (List Char)) (i : Nat) (raw : List Char) :
    (checkLine lines i raw).2 = [] ∨
    (checkLine lines i raw).2 = [⟨i, delimiterMsg⟩] := by
  unfold checkLine
  dsimp only
  split
  · exact Or.inl rfl
  · (repeat' split) <;> simp

/-- A finding contributed by line `i` carries line number `i` (errors). -/
lemma line_of_mem_checkLine_fst {lines : List (List Char)} {i : Nat}
    {raw : List Char} {f : Finding} (hf : f ∈ (checkLine lines i raw).1) :
    f.line = i := by
  rcases checkLine_fst_cases lines i raw with h | h | h | h <;>
    rw [h] at hf <;> simp_all <;> rcases hf with h1 | h1 <;> simp [h1]

/-- A finding contributed by line `i` carries line number `i` (warnings). -/
lemma line_of_mem_checkLine_snd {lines : List (List Char)} {i : Nat}
    {raw : List Char} {f : Finding} (hf : f ∈ (checkLine lines i raw).2) :
    f.line = i := by
  rcases checkLine_snd_cases lines i raw with h | h <;> rw [h] at hf <;> simp_all

/-- A line contributes no error finding whose line number differs from it. -/
lemma checkLine_fst_count_ne {lines : List (List Char)} {i : Nat}
    {raw : List Char} {g : Finding} (h : g.line ≠ i) :
    ((checkLine lines i raw).1).count g = 0 := by
  rw [List.count_eq_zero]
  intro hmem
  exact h (line_of_mem_checkLine_fst hmem)

/-- A line contributes no warning finding whose line number differs from it. -/
lemma checkLine_snd_count_ne {lines : List (List Char)} {i : Nat}
    {raw : List Char} {g : Finding} (h : g.line ≠ i) :
    ((checkLine lines i raw).2).count g = 0 := by
  rw [List.count_eq_zero]
  intro hmem
  exact h (line_of_mem_checkLine_snd hmem)

/-- Occurrences of a finding in the accumulated error sequence all come from
the chunk contributed by the line whose 1-based number the finding carries. -/
lemma validateAux_fst_count (lines : List (List Char)) (g : Finding) :
    ∀ (rest : List (List Char)) (i : Nat),
      ((validateAux lines i rest).1).count g =
        if i ≤ g.line ∧ g.line < i + rest.length then
          ((checkLine lines g.line (rest.getD (g.line - i) [])).1).count g
        else 0 := by
  intro rest
  induction rest with
  | nil =>
    intro i
    simp only [List.length_nil, Nat.add_zero]
    rw [if_neg (by omega)]
    simp [validateAux]
  | cons raw rest ih =>
    intro i
    simp only [validateAux, List.count_append, List.length_cons]
    rcases eq_or_ne g.line i with h | h
    · rw [ih (i + 1), if_neg (by omega), if_pos (by omega), h, Nat.sub_self]
      simp
    · rw [checkLine_fst_count_ne h, ih (i + 1), Nat.zero_add]
      by_cases hin : i + 1 ≤ g.line ∧ g.line < i + 1 + rest.length
      · rw [if_pos hin, if_pos (by omega)]
        obtain ⟨m, hm⟩ : ∃ m, g.line - i = m + 1 := ⟨g.line - i - 1, by omega⟩
        have hm2 : g.line - (i + 1) = m := by omega
        rw [hm, hm2, List.getD_cons_succ]
      · rw [if_neg hin, if_neg (by omega)]

/-- Occurrences of a finding in the accumulated warning sequence all come
from the chunk contributed by the line whose number the finding carries. -/
lemma validateAux_snd_count (lines : List (List Char)) (g : Finding) :
    ∀ (rest : List (List Char)) (i : Nat),
      ((validateAux lines i rest).2).count g =
        if i ≤ g.line ∧ g.line < i + rest.length then
          ((checkLine lines g.line (rest.getD (g.line - i) [])).2).count g
        else 0 := by
  intro rest
  induction rest with
  | nil =>
    intro i
    simp only [List.length_nil, Nat.add_zero]
    rw [if_neg (by omega)]
    simp [validateAux]
  | cons raw rest ih =>
    intro i
    simp only [validateAux, List.count_append, List.length_cons]
    rcases eq_or_ne g.line i with h | h
    · rw [ih (i + 1), if_neg (by omega), if_pos (by omega), h, Nat.sub_self]
      simp
    · rw [checkLine_snd_count_ne h, ih (i + 1), Nat.zero_add]
      by_cases hin : i + 1 ≤ g.line ∧ g.line < i + 1 + rest.length
      · rw [if_pos hin, if_pos (by omega)]
        obtain ⟨m, hm⟩ : ∃ m, g.line - i = m + 1 := ⟨g.line - i - 1, by omega⟩
        have hm2 : g.line - (i + 1) = m := by omega
        rw [hm, hm2, List.getD_cons_succ]
      · rw [if_neg hin, if_neg (by omega)]

/-- Count of a finding in the error sequence of `validate_sql`. -/
lemma validate_fst_count (T : String) (g : Finding) :
    ((validate_sql T).1).count g =
      if 1 ≤ g.line ∧ g.line ≤ (docLines T).length then
        ((checkLine (docLines T) g.line ((docLines T).getD (g.line - 1) [])).1).count g
      else 0 := by
  show ((validateAux (docLines T) 1 (docLines T)).1).count g = _
  rw [validateAux_fst_count]
  by_cases h : 1 ≤ g.line ∧ g.line ≤ (docLines T).length
  · rw [if_pos (by omega), if_pos h]
  · rw [if_neg (by omega), if_neg h]

/-- Count of a finding in the warning sequence of `validate_sql`. -/
lemma validate_snd_count (T : String) (g : Finding) :
    ((validate_sql T).2).count g =
      if 1 ≤ g.line ∧ g.line ≤ (docLines T).length then
        ((checkLine (docLines T) g.line ((docLines T).getD (g.line - 1) [])).2).count g
      else 0 := by
  show ((validateAux (docLines T) 1 (docLines T)).2).count g = _
  rw [validateAux_snd_count]
  by_cases h : 1 ≤ g.line ∧ g.line ≤ (docLines T).length
  · rw [if_pos (by omega), if_pos h]
  · rw [if_neg (by omega), if_neg h]

/-- A finding is among the errors exactly when the line it names is a real
line of the document and contributes it. -/
lemma validate_fst_mem_iff (T : String) (g : Finding) :
    g ∈ (validate_sql T).1 ↔
      (1 ≤ g.line ∧ g.line ≤ (docLines T).length ∧
        g ∈ (checkLine (docLines T) g.line ((docLines T).getD (g.line - 1) [])).1) := by
  rw [← List.count_pos_iff, validate_fst_count]
  by_cases h : 1 ≤ g.line ∧ g.line ≤ (docLines T).length
  · rw [if_pos h, List.count_pos_iff]
    exact ⟨fun hm => ⟨h.1, h.2, hm⟩, fun hm => hm.2.2⟩
  · rw [if_neg h]
    simp only [Nat.lt_irrefl, false_iff]
    intro hc
    exact h ⟨hc.1, hc.2.1⟩

/-- A finding is among the warnings exactly when the line it names is a real
line of the document and contributes it. -/
lemma validate_snd_mem_iff (T : String) (g : Finding) :
    g ∈ (validate_sql T).2 ↔
      (1 ≤ g.line ∧ g.line ≤ (docLines T).length ∧
        g ∈ (checkLine (docLines T) g.line ((docLines T).getD (g.line - 1) [])).2) := by
  rw [← List.count_pos_iff, validate_snd_count]
  by_cases h : 1 ≤ g.line ∧ g.line ≤ (docLines T).length
  · rw [if_pos h, List.count_pos_iff]
    exact ⟨fun hm => ⟨h.1, h.2, hm⟩, fun hm => hm.2.2⟩
  · rw [if_neg h]
    simp only [Nat.lt_irrefl, false_iff]
    intro hc
    exact h ⟨hc.1, hc.2.1⟩

/-- A list with a non-empty prefix starts with the first character of that
prefix. -/
lemma cons_of_isPrefixOf {c : Char} {cs l : List Char}
    (h : (c :: cs).isPrefixOf l = true) : ∃ t, l = c :: t := by
  cases l with
  | nil => simp [List.isPrefixOf] at h
  | cons d t =>
    simp only [List.isPrefixOf, Bool.and_eq_true, beq_iff_eq] at h
    exact ⟨t, by rw [h.1]⟩

/-- A stripped line that starts with the block opener is neither empty nor a
comment line. -/
lemma guard_false_of_DO {line : List Char}
    (h : ("DO $$".data).isPrefixOf line = true) :
    (line.isEmpty || ("--".data).isPrefixOf line) = false := by
  have h' : ('D' :: "O $$".data).isPrefixOf line = true := h
  obtain ⟨t, rfl⟩ := cons_of_isPrefixOf h'
  simp [List.isPrefixOf]

/-- If no index `k` among the `fuel` next loop positions satisfies the break
condition, the loop runs out. -/
lemma scanCloseAux_eq_false (lines : List (List Char)) :
    ∀ (fuel j : Nat),
      (∀ k, j ≤ k → k < j + fuel →
        ("$$;".data).isSuffixOf (pyStrip (lines.getD (k - 1) [])) = false) →
      scanCloseAux lines fuel j = false := by
  intro fuel
  induction fuel with
  | zero => intro j _; rfl
  | succ fuel ih =>
    intro j h
    unfold scanCloseAux
    rw [h j (Nat.le_refl j) (by omega)]
    simp only [Bool.false_eq_true, if_false]
    exact ih (j + 1) (fun k hk1 hk2 => h k (by omega) (by omega))

/-- If no line from position `j` on (1-based, last line excluded by the loop
bound) ends with the closing tag, the forward scan fails. -/
theorem scanClose_eq_false (lines : List (List Char)) (j : Nat)
    (h : ∀ k, j ≤ k → k < lines.length →
      ("$$;".data).isSuffixOf (pyStrip (lines.getD (k - 1) [])) = false) :
    scanClose lines j = false :=
  scanCloseAux_eq_false lines (lines.length - j) j
    (fun k hk1 hk2 => h k hk1 (by omega))

/-- The two error messages differ. -/
lemma constraintMsg_ne_doBlockMsg : constraintMsg ≠ doBlockMsg := by decide

/-- An unclosed opener line contributes the unclosed-block error exactly
once. -/
lemma checkLine_do_count {lines : List (List Char)} {i : Nat} {raw : List Char}
    (hpre : ("DO $$".data).isPrefixOf (pyStrip raw) = true)
    (hsuf : ("$$;".data).isSuffixOf (pyStrip raw) = false)
    (hscan : scanClose lines i = false) :
    ((checkLine lines i raw).1).count (⟨i, doBlockMsg⟩ : Finding) = 1 := by
  have hg := guard_false_of_DO hpre
  unfold checkLine
  dsimp only
  rw [hg, hpre, hsuf, hscan]
  simp only [Bool.false_eq_true, if_false, Bool.not_false, Bool.and_self, if_true,
    List.count_append]
  split
  · have h0 : List.count (⟨i, doBlockMsg⟩ : Finding) [(⟨i, constraintMsg⟩ : Finding)] = 0 := by
      rw [List.count_eq_zero]
      intro hmem
      rw [List.mem_singleton] at hmem
      exact constraintMsg_ne_doBlockMsg (congrArg Finding.msg hmem).symm
    rw [h0, Nat.zero_add]
    simp
  · simp

/-- A non-blank, non-comment line containing the invalid clause contributes
the constraint error. -/
lemma checkLine_constraint_mem {lines : List (List Char)} {i : Nat}
    {raw : List Char}
    (hne : (pyStrip raw).isEmpty = false)
    (hcm : ("--".data).isPrefixOf (pyStrip raw) = false)
    (hc : pyContains ("ADD CONSTRAINT IF NOT EXISTS".data) (pyStrip raw) = true) :
    (⟨i, constraintMsg⟩ : Finding) ∈ (checkLine lines i raw).1 := by
  unfold checkLine
  dsimp only
  rw [hne, hcm, hc]
  simp

/-- A non-blank, non-comment line containing the function header whose
11-line window lacks the delimiter contributes exactly the one warning. -/
lemma checkLine_warn_eq {lines : List (List Char)} {i : Nat} {raw : List Char}
    (hne : (pyStrip raw).isEmpty = false)
    (hcm : ("--".data).isPrefixOf (pyStrip raw) = false)
    (hf : pyContains ("CREATE OR REPLACE FUNCTION".data) (pyStrip raw) = true)
    (hw : pyContains ("$$".data) (((lines.drop (i - 1)).take 11).flatten) = false) :
    (checkLine lines i raw).2 = [⟨i, delimiterMsg⟩] := by
  unfold checkLine
  dsimp only
  rw [hne, hcm, hf, hw]
  simp

/-- Without the (upper-case) invalid clause in the stripped line, no
constraint error is contributed. -/
lemma checkLine_constraint_count_zero {lines : List (List Char)} {i : Nat}
    {raw : List Char}
    (h : pyContains ("ADD CONSTRAINT IF NOT EXISTS".data) (pyStrip raw) = false) :
    ((checkLine lines i raw).1).count (⟨i, constraintMsg⟩ : Finding) = 0 := by
  unfold checkLine
  dsimp only
  split
  · simp
  · rw [h]
    simp only [Bool.false_eq_true, if_false, List.nil_append]
    split
    · split
      · simp
      · rw [List.count_eq_zero]
        intro hmem
        rw [List.mem_singleton] at hmem
        exact constraintMsg_ne_doBlockMsg (congrArg Finding.msg hmem)
    · simp

/-- Without the (upper-case) opener prefix on the stripped line, no
unclosed-block error is contributed. -/
lemma checkLine_do_count_zero {lines : List (List Char)} {i : Nat}
    {raw : List Char}
    (h : ("DO $$".data).isPrefixOf (pyStrip raw) = false) :
    ((checkLine lines i raw).1).count (⟨i, doBlockMsg⟩ : Finding) = 0 := by
  unfold checkLine
  dsimp only
  split
  · simp
  · rw [h]
    simp only [Bool.false_and, Bool.false_eq_true, if_false, List.append_nil]
    split
    · rw [List.count_eq_zero]
      intro hmem
      rw [List.mem_singleton] at hmem
      exact constraintMsg_ne_doBlockMsg (congrArg Finding.msg hmem).symm
    · simp

/-- Without the (upper-case) function header in the stripped line, no
warning is contributed. -/
lemma checkLine_snd_eq_nil {lines : List (List Char)} {i : Nat}
    {raw : List Char}
    (h : pyContains ("CREATE OR REPLACE FUNCTION".data) (pyStrip raw) = false) :
    (checkLine lines i raw).2 = [] := by
  unfold checkLine
  dsimp only
  split
  · rfl
  · rw [h]
    simp

/-- If every line of `rest` (the tail of the document from 1-based position
`i` on) is blank, a comment, or free of all three trigger patterns, the scan
of `rest` accumulates nothing. -/
lemma validateAux_eq_nil (lines : List (List Char)) :
    ∀ (rest : List (List Char)) (i : Nat),
      (∀ k, k < rest.length →
        ((pyStrip (rest.getD k [])).isEmpty = false →
         ("--".data).isPrefixOf (pyStrip (rest.getD k [])) = false →
         pyContains ("ADD CONSTRAINT IF NOT EXISTS".data) (pyStrip (rest.getD k [])) = false ∧
         ("DO $$".data).isPrefixOf (pyStrip (rest.getD k [])) = false ∧
         pyContains ("CREATE OR REPLACE FUNCTION".data) (pyStrip (rest.getD k [])) = false)) →
      validateAux lines i rest = ([], []) := by
  intro rest
  induction rest with
  | nil => intro i h; rfl
  | cons raw rest ih =>
    intro i h
    have h0 := h 0 (by simp)
    simp only [List.getD_cons_zero] at h0
    have hhd : checkLine lines i raw = ([], []) := by
      unfold checkLine
      dsimp only
      split
      · rfl
      · rename_i hguard
        have hg1 : (pyStrip raw).isEmpty = false := by
          cases hie : (pyStrip raw).isEmpty
          · rfl
          · exact absurd (by rw [hie]; rfl) hguard
        have hg2 : ("--".data).isPrefixOf (pyStrip raw) = false := by
          cases hie : ("--".data).isPrefixOf (pyStrip raw)
          · rfl
          · exact absurd (by rw [hie, Bool.or_true]) hguard
        obtain ⟨h1, h2, h3⟩ := h0 hg1 hg2
        rw [h1, h2, h3]
        simp
    have htl : validateAux lines (i + 1) rest = ([], []) := by
      refine ih (i + 1) (fun k hk => ?_)
      have := h (k + 1) (by simpa using Nat.succ_lt_succ hk)
      simpa only [List.getD_cons_succ] using this
    simp [validateAux, hhd, htl]

/-! ### The claims -/

/-- C1: the claim states that a closing line anywhere up to and including the
last line of the document suppresses the unclosed-block error, so that the
two-line Scenario-4 document gives `errors = []` and exit code 0.  The code
disagrees: the forward scan runs `while j < len(lines)` but reads `lines[j-1]`,
so the last line of the document is never examined.  In the two-line document
the second (and last) stripped line does end with the closing tag, yet the
error is emitted at line 1 and the exit status is 1. -/
theorem c1_close_on_last_line_missed :
    ("$$;".data).isSuffixOf
        (pyStrip ((docLines "DO $$\nBEGIN NULL; END $$;").getD 1 [])) = true ∧
    validate_sql "DO $$\nBEGIN NULL; END $$;" =
      ([⟨1, doBlockMsg⟩], []) ∧
    (mainModel (some "DO $$\nBEGIN NULL; END $$;")).2 = 1 :=
  ⟨rfl, rfl, rfl⟩

/-- C2: an opener line whose stripped form begins with the block opener and
does not itself end with the closing tag, with no line from the opener
through the end of the document ending (stripped) with the closing tag,
yields exactly one unclosed-block error carrying the opener's 1-based line
number. -/
theorem c2_unclosed_do_block_error (T : String) (i : Nat)
    (hi1 : 1 ≤ i) (hi2 : i ≤ (docLines T).length)
    (hopen : ("DO $$".data).isPrefixOf (pyStrip ((docLines T).getD (i - 1) [])) = true)
    (hnoend : ("$$;".data).isSuffixOf (pyStrip ((docLines T).getD (i - 1) [])) = false)
    (hnoclose : ∀ k, k < (docLines T).length + 1 → i ≤ k →
      ("$$;".data).isSuffixOf (pyStrip ((docLines T).getD (k - 1) [])) = false) :
    ((validate_sql T).1).count (⟨i, doBlockMsg⟩ : Finding) = 1 := by
  have hscan : scanClose (docLines T) i = false :=
    scanClose_eq_false (docLines T) i (fun k hk1 hk2 => hnoclose k (by omega) hk1)
  rw [validate_fst_count]
  dsimp only
  rw [if_pos ⟨hi1, hi2⟩]
  exact checkLine_do_count hopen hnoend hscan

/-- C2 witness: the four-line Scenario-3 document, never closed, has exactly
the one unclosed-block error at line 1 and exit code 1. -/
theorem c2_unclosed_do_block_error_witness :
    ((validate_sql "DO $$\nBEGIN\n  NULL;\nEND").1).count
        (⟨1, doBlockMsg⟩ : Finding) = 1 ∧
    validate_sql "DO $$\nBEGIN\n  NULL;\nEND" = ([⟨1, doBlockMsg⟩], []) ∧
    (mainModel (some "DO $$\nBEGIN\n  NULL;\nEND")).2 = 1 :=
  ⟨c2_unclosed_do_block_error "DO $$\nBEGIN\n  NULL;\nEND" 1 (by decide) (by decide)
      (by decide) (by decide) (by decide),
   rfl, rfl⟩

/-- C3: a line whose stripped form is non-empty, is not a comment and
contains the invalid clause yields a constraint error carrying that line's
1-based number. -/
theorem c3_invalid_constraint_error (T : String) (i : Nat)
    (hi1 : 1 ≤ i) (hi2 : i ≤ (docLines T).length)
    (hne : (pyStrip ((docLines T).getD (i - 1) [])).isEmpty = false)
    (hcm : ("--".data).isPrefixOf (pyStrip ((docLines T).getD (i - 1) [])) = false)
    (hc : pyContains ("ADD CONSTRAINT IF NOT EXISTS".data)
        (pyStrip ((docLines T).getD (i - 1) [])) = true) :
    (⟨i, constraintMsg⟩ : Finding) ∈ (validate_sql T).1 := by
  rw [validate_fst_mem_iff]
  exact ⟨hi1, hi2, checkLine_constraint_mem hne hcm hc⟩

/-- C3 witness: the one-line Scenario-2 input yields exactly one error, at
line 1, and exit code 1. -/
theorem c3_invalid_constraint_error_witness :
    (⟨1, constraintMsg⟩ : Finding) ∈
      (validate_sql "ALTER TABLE t ADD CONSTRAINT IF NOT EXISTS ck CHECK (x>0);").1 ∧
    validate_sql "ALTER TABLE t ADD CONSTRAINT IF NOT EXISTS ck CHECK (x>0);" =
      ([⟨1, constraintMsg⟩], []) ∧
    (mainModel (some "ALTER TABLE t ADD CONSTRAINT IF NOT EXISTS ck CHECK (x>0);")).2 = 1 :=
  ⟨c3_invalid_constraint_error _ 1 (by decide) (by decide) (by decide) (by decide) (by decide),
   rfl, rfl⟩

/-- C4: a non-blank, non-comment line containing the function header, such
that the concatenation of that line and the next 10 lines (fewer if fewer
remain) does not contain the dollar-quote marker, yields a warning carrying
that line's 1-based number. -/
theorem c4_function_delimiter_warning (T : String) (i : Nat)
    (hi1 : 1 ≤ i) (hi2 : i ≤ (docLines T).length)
    (hne : (pyStrip ((docLines T).getD (i - 1) [])).isEmpty = false)
    (hcm : ("--".data).isPrefixOf (pyStrip ((docLines T).getD (i - 1) [])) = false)
    (hf : pyContains ("CREATE OR REPLACE FUNCTION".data)
        (pyStrip ((docLines T).getD (i - 1) [])) = true)
    (hw : pyContains ("$$".data) ((((docLines T).drop (i - 1)).take 11).flatten) = false) :
    (⟨i, delimiterMsg⟩ : Finding) ∈ (validate_sql T).2 := by
  rw [validate_snd_mem_iff]
  refine ⟨hi1, hi2, ?_⟩
  rw [checkLine_warn_eq hne hcm hf hw]
  exact List.mem_singleton_self _

/-- C4 witness: the one-line Scenario-5 input yields exactly that warning at
line 1, no errors, and exit code 0. -/
theorem c4_function_delimiter_warning_witness :
    (⟨1, delimiterMsg⟩ : Finding) ∈
      (validate_sql
        "CREATE OR REPLACE FUNCTION f() RETURNS int AS BEGIN RETURN 1; END;").2 ∧
    validate_sql
        "CREATE OR REPLACE FUNCTION f() RETURNS int AS BEGIN RETURN 1; END;" =
      ([], [⟨1, delimiterMsg⟩]) ∧
    (mainModel
        (some "CREATE OR REPLACE FUNCTION f() RETURNS int AS BEGIN RETURN 1; END;")).2 = 0 :=
  ⟨c4_function_delimiter_warning _ 1 (by decide) (by decide) (by decide) (by decide)
      (by decide) (by decide),
   rfl, rfl⟩

/-- C5: if every line of the document is blank after stripping, a comment, or
free of the three trigger patterns (the invalid clause, the block-opener
prefix, the function header), both result sequences are empty. -/
theorem c5_no_triggers_empty_results (T : String)
    (h : ∀ k, k < (docLines T).length →
      ((pyStrip ((docLines T).getD k [])).isEmpty = false →
       ("--".data).isPrefixOf (pyStrip ((docLines T).getD k [])) = false →
       pyContains ("ADD CONSTRAINT IF NOT EXISTS".data)
           (pyStrip ((docLines T).getD k [])) = false ∧
       ("DO $$".data).isPrefixOf (pyStrip ((docLines T).getD k [])) = false ∧
       pyContains ("CREATE OR REPLACE FUNCTION".data)
           (pyStrip ((docLines T).getD k [])) = false)) :
    validate_sql T = ([], []) :=
  validateAux_eq_nil (docLines T) (docLines T) 1 h

/-- C5 witness: the empty document, and a document whose only trigger text
sits on a comment line next to blank lines, both validate to empty results. -/
theorem c5_no_triggers_empty_results_witness :
    validate_sql "" = ([], []) ∧
    validate_sql "-- ADD CONSTRAINT IF NOT EXISTS\n\n   \nSELECT 1;" = ([], []) :=
  ⟨c5_no_triggers_empty_results "" (by decide),
   c5_no_triggers_empty_results "-- ADD CONSTRAINT IF NOT EXISTS\n\n   \nSELECT 1;" (by decide)⟩

/-- C6: the line number embedded in any returned finding equals the 1-based
position, in the newline decomposition of the document (counting blank and
comment lines), of the line that triggered it: the finding is among the
findings contributed by the check of that very line. -/
theorem c6_line_numbers_correct (T : String) (f : Finding) :
    (f ∈ (validate_sql T).1 →
      1 ≤ f.line ∧ f.line ≤ (docLines T).length ∧
      f ∈ (checkLine (docLines T) f.line ((docLines T).getD (f.line - 1) [])).1) ∧
    (f ∈ (validate_sql T).2 →
      1 ≤ f.line ∧ f.line ≤ (docLines T).length ∧
      f ∈ (checkLine (docLines T) f.line ((docLines T).getD (f.line - 1) [])).2) :=
  ⟨fun h => (validate_fst_mem_iff T f).mp h, fun h => (validate_snd_mem_iff T f).mp h⟩

/-- C6 witness: in a document whose first two lines are a comment and a blank
line, the unclosed opener on line 3 is reported at line 3, and that position
in the full line list is the opener line. -/
theorem c6_line_numbers_correct_witness :
    (⟨3, doBlockMsg⟩ : Finding) ∈ (validate_sql "-- header\n\nDO $$\nBEGIN").1 ∧
    (1 ≤ 3 ∧ 3 ≤ (docLines "-- header\n\nDO $$\nBEGIN").length ∧
      (⟨3, doBlockMsg⟩ : Finding) ∈
        (checkLine (docLines "-- header\n\nDO $$\nBEGIN") 3
          ((docLines "-- header\n\nDO $$\nBEGIN").getD 2 [])).1) :=
  ⟨by decide,
   (c6_line_numbers_correct "-- header\n\nDO $$\nBEGIN" ⟨3, doBlockMsg⟩).1 (by decide)⟩

/-- C7: the exit status is 0 exactly when the error sequence is empty
(warnings are irrelevant) and 1 exactly when it is not; a missing input
prints the one distinct message and exits with 1, with no validation
output. -/
theorem c7_exit_status :
    mainModel none = (["❌ SQL file not found"], 1) ∧
    (∀ t : String,
      ((mainModel (some t)).2 = 0 ↔ (validate_sql t).1 = []) ∧
      ((mainModel (some t)).2 = 1 ↔ (validate_sql t).1 ≠ [])) := by
  refine ⟨rfl, fun t => ?_⟩
  by_cases h : (validate_sql t).1 = []
  · simp [mainModel, h]
  · simp [mainModel, h, List.isEmpty_iff]

/-- C8: the statement count the report prints is the number of pieces of the
raw document split on every semicolon; it is 2 for the Scenario-1 input and
1 for the empty document. -/
theorem c8_statement_count :
    (∀ t : String,
      ("\n📊 File contains " ++ toString ((pySplit ';' t.data).length)
          ++ " SQL statements") ∈ (mainModel (some t)).1) ∧
    statementCount "SELECT 1;" = 2 ∧ statementCount "" = 1 := by
  refine ⟨fun t => ?_, rfl, rfl⟩
  show _ ∈ report t
  unfold report
  dsimp only
  exact List.mem_append_right _ (List.mem_cons_self _ _)

/-- C9: the three pattern checks are case-sensitive: a stripped line
containing only the lower-case variant of the invalid clause gets no
constraint error, one beginning only with the lower-case opener gets no
unclosed-block error, and one containing only the lower-case function header
gets no delimiter warning. -/
theorem c9_case_sensitive :
    (∀ (T : String) (i : Nat),
      pyContains ("add constraint if not exists".data)
          (pyStrip ((docLines T).getD (i - 1) [])) = true →
      pyContains ("ADD CONSTRAINT IF NOT EXISTS".data)
          (pyStrip ((docLines T).getD (i - 1) [])) = false →
      (⟨i, constraintMsg⟩ : Finding) ∉ (validate_sql T).1) ∧
    (∀ (T : String) (i : Nat),
      ("do $$".data).isPrefixOf (pyStrip ((docLines T).getD (i - 1) [])) = true →
      ("DO $$".data).isPrefixOf (pyStrip ((docLines T).getD (i - 1) [])) = false →
      (⟨i, doBlockMsg⟩ : Finding) ∉ (validate_sql T).1) ∧
    (∀ (T : String) (i : Nat),
      pyContains ("create or replace function".data)
          (pyStrip ((docLines T).getD (i - 1) [])) = true →
      pyContains ("CREATE OR REPLACE FUNCTION".data)
          (pyStrip ((docLines T).getD (i - 1) [])) = false →
      (⟨i, delimiterMsg⟩ : Finding) ∉ (validate_sql T).2) := by
  refine ⟨fun T i _ hup h => ?_, fun T i _ hup h => ?_, fun T i _ hup h => ?_⟩
  · rw [validate_fst_mem_iff] at h
    exact List.count_eq_zero.mp (checkLine_constraint_count_zero hup) h.2.2
  · rw [validate_fst_mem_iff] at h
    exact List.count_eq_zero.mp (checkLine_do_count_zero hup) h.2.2
  · rw [validate_snd_mem_iff] at h
    have h22 := h.2.2
    rw [checkLine_snd_eq_nil hup] at h22
    exact List.not_mem_nil _ h22

/-- C9 witness: lower-case variants of the three trigger lines produce none
of the corresponding findings. -/
theorem c9_case_sensitive_witness :
    (⟨1, constraintMsg⟩ : Finding) ∉
      (validate_sql "alter table t add constraint if not exists ck check (x>0);").1 ∧
    (⟨1, doBlockMsg⟩ : Finding) ∉ (validate_sql "do $$\nbegin").1 ∧
    (⟨1, delimiterMsg⟩ : Finding) ∉ (validate_sql "create or replace function f();").2 :=
  ⟨c9_case_sensitive.1 _ 1 (by decide) (by decide),
   c9_case_sensitive.2.1 _ 1 (by decide) (by decide),
   c9_case_sensitive.2.2 _ 1 (by decide) (by decide)⟩

/-- C10: validation is total: every document yields a result, and the inner
forward scan of the unclosed-block check returns as soon as its index
reaches the number of lines, its bound. -/
theorem c10_validate_total :
    (∀ t : String, ∃ p : List Finding × List Finding, validate_sql t = p) ∧
    (∀ (lines : List (List Char)) (j : Nat),
      scanClose lines (lines.length + j) = false) := by
  refine ⟨fun t => ⟨validate_sql t, rfl⟩, fun lines j => ?_⟩
  unfold scanClose
  rw [Nat.sub_eq_zero_of_le (by omega)]
  rfl

end ValidateSql
